import Mathlib

/-!
Verification development for the SmileCRM voice-command pipeline.

Shallow embedding of the voice-understanding core of the repository:

* `backend/app/services/voice_actions.py`      — action router / auto-committer
* `backend/app/services/armenian_normalizer.py`— amount / currency / date normalizer
* `backend/app/services/voice_service.py`      — `_validate_date`, `process_voice`
* `backend/app/api/voice.py`                   — `auto_parse_voice` guard,
  `_infer_action_from_data`, `_calculate_confidence`

Modelling conventions:

* Python `None`-able values become `Option _`; Python truthiness of optional
  strings is `optTruthy` (`None` and `""` are falsy).
* Python `float` is modelled by `PyFloat`: a finite rational, `+inf`, `-inf`
  or `nan`, with the comparison `x <= 0` given float semantics
  (`nan <= 0` and `inf <= 0` are both false).  Binary floating-point
  round-off of finite values is idealised to exact rational arithmetic;
  every concrete input evaluated in this file is exact in binary floats too.
* The external data store is an effect: handlers return the list of store
  writes they perform.  Store-assigned row ids are abstracted into the
  environment (`Env.newId`); store-level failures are not modelled (store
  calls always succeed), which is the success path all claims talk about.
* Human-readable warning strings are abstracted to the `Warn` tag of the
  `warnings.append(...)` site that produced them; the claims only ever count
  warnings or compare result shapes, never message texts.
-/

namespace SmileCRM

/-! ## Python-style helpers -/

/-- ASCII digit test, as used by Python's regex `\d` on the inputs involved. -/
def isDig (c : Char) : Bool := 48 ≤ c.toNat && c.toNat ≤ 57

/-- Numeric value of an ASCII digit character. -/
def digVal (c : Char) : ℕ := c.toNat - 48

/-- Value of a big-endian list of ASCII digits. -/
def natOfDigits (l : List Char) : ℕ := l.foldl (fun acc c => 10 * acc + digVal c) 0

/-- Python truthiness of an optional string: `None` and `""` are falsy. -/
def optTruthy : Option String → Bool
  | none => false
  | some s => s ≠ ""

/-- First truthy value of an `or`-chain of optional strings (the Python
`a or b or c` idiom); `none` when every link is falsy. -/
def firstTruthy : List (Option String) → Option String
  | [] => none
  | o :: rest => if optTruthy o then o else firstTruthy rest

/-- Python whitespace characters stripped by `str.strip()` / matched by `\s`
(ASCII part; no claim in this file involves non-ASCII whitespace). -/
def isPySpace (c : Char) : Bool :=
  c = ' ' || c = '\t' || c = '\n' || c = '\x0d' || c = '\x0b' || c = '\x0c'

/-- `str.strip()` on a character list. -/
def pyStripL (l : List Char) : List Char :=
  ((l.dropWhile isPySpace).reverse.dropWhile isPySpace).reverse

/-- `str.strip()` on a string. -/
def pyStripS (s : String) : String := ⟨pyStripL s.data⟩

/-- Python `str.lower()` for the scripts this code base works with:
ASCII `A–Z`, Cyrillic `А–Я`/`Ё`, and Armenian `Ա–Ֆ`.  Other characters are
left unchanged (no token of the source contains any other cased script). -/
def pyLowerChar (c : Char) : Char :=
  let n := c.toNat
  if 65 ≤ n ∧ n ≤ 90 then Char.ofNat (n + 32)          -- ASCII A-Z
  else if 0x410 ≤ n ∧ n ≤ 0x42f then Char.ofNat (n + 32) -- Cyrillic А-Я
  else if n = 0x401 then Char.ofNat 0x451                -- Ё
  else if 0x531 ≤ n ∧ n ≤ 0x556 then Char.ofNat (n + 48) -- Armenian Ա-Ֆ
  else c

/-- `str.lower()` on a character list. -/
def pyLowerL (l : List Char) : List Char := l.map pyLowerChar

/-- Substring test `tok in text` (Python `in` on strings). -/
def containsSub (text tok : List Char) : Bool :=
  match text with
  | [] => tok = []
  | _ :: rest => tok.isPrefixOf text || containsSub rest tok

/-! ## Warning tags

One constructor per `warnings.append(...)` site the claims touch; the
human-readable (mostly Russian) message text is abstracted away. -/

inductive Warn where
  | lowConfidence          -- voice_actions: confidence below threshold
  | commandNotRecognized   -- voice_actions: action == "unknown"
  | unknownCommand         -- voice_actions: unhandled action string
  | visitDateDefaulted     -- voice_actions: visit date absent, defaulted to today
  | noUpdateVisitData      -- voice_actions: update_visit with nothing to do
  | noPaymentAmount        -- voice_actions: payment amount missing/falsy
  | amountNotPositive      -- voice_actions: float(amount) <= 0
  | invalidAmount          -- voice_actions: float(amount) raised
  | noPatientUpdateData    -- voice_actions: update_patient with no fields
  | emptyNote              -- voice_actions: note text empty
  | emptyMedsList          -- voice_actions: medication list empty
  | medsCreateFailed       -- voice_actions: no medication row created
  | amdRubConflict         -- armenian_normalizer: both AMD and RUB tokens
  | rubInArmenianLocale    -- armenian_normalizer: RUB tokens, locale hy
  | dateFormatInvalid      -- voice_service: date.fromisoformat failed
  | dateTooPast            -- voice_service: date before today - 30 days
  | dateTooFuture          -- voice_service: date after today + 365 days
  | cantRecognize          -- voice_service: empty transcription
deriving DecidableEq, Repr

/-! ## Python float values (`voice_actions._handle_create_payment`) -/

/-- A Python `float` value: finite (idealised to an exact rational), or one
of the non-finite values.  -/
inductive PyFloat where
  | fin (q : ℚ)
  | pinf
  | ninf
  | nanv
deriving DecidableEq, Repr

/-- The Python comparison `x <= 0` on a float: false for `nan` and `+inf`. -/
def PyFloat.leZero : PyFloat → Bool
  | .fin q => q ≤ 0
  | .pinf => false
  | .ninf => true
  | .nanv => false

/-- A value found in the `amount` field of the parsed payment dict, together
with how `float(...)` treats it. -/
inductive AmtV where
  | num (x : PyFloat)     -- already an `int`/`float` with value `x`
  | strnum (x : PyFloat)  -- a non-empty string that `float()` converts to `x`
  | bad (truthy : Bool)   -- any value on which `float()` raises
deriving DecidableEq, Repr

/-- Python truthiness of an amount value (`if not amount`). -/
def AmtV.truthy : AmtV → Bool
  | .num (.fin q) => q ≠ 0
  | .num _ => true
  | .strnum _ => true
  | .bad t => t

/-- `float(amount)`: `none` models a raised `TypeError`/`ValueError`. -/
def AmtV.toFloat : AmtV → Option PyFloat
  | .num x => some x
  | .strnum x => some x
  | .bad _ => none

/-! ## Data model of `voice_actions.apply_voice_action`'s `parsed` dict -/

/-- The `visit` sub-dict of a parsed voice command. -/
structure VisitData where
  visit_date : Option String
  next_visit_date : Option String
  notes : Option String
  medications : Option String
deriving DecidableEq, Repr

/-- The all-absent visit dict (`parsed.get("visit", {}) or {}`). -/
def VisitData.empty : VisitData := ⟨none, none, none, none⟩

/-- The `payment` sub-dict of a parsed voice command. -/
structure PaymentData where
  amount : Option AmtV
  currency : Option String
  comment : Option String
deriving DecidableEq, Repr

def PaymentData.empty : PaymentData := ⟨none, none, none⟩

/-- The `patient` sub-dict; only the keys the router reads
(`diagnosis`, `status`) are modelled — the identity hints
(`first_name`, `last_name`, `phone`, `patient_id`) are never read by
`apply_voice_action` and are omitted. -/
structure PatientData where
  diagnosis : Option String
  status : Option String
deriving DecidableEq, Repr

def PatientData.empty : PatientData := ⟨none, none⟩

/-- One element of the `medications` list: either not a dict (skipped by the
loop) or a dict with the fields `_handle_add_medications` reads. -/
inductive MedItem where
  | notDict
  | item (name dose frequency duration comment : Option String)
deriving DecidableEq, Repr

/-- The parsed voice command handed to `apply_voice_action`.  Missing keys
are the defaults (`action` → `"unknown"`, `confidence` → `0`). -/
structure Parsed where
  action : String
  confidence : ℚ
  visit : Option VisitData
  payment : Option PaymentData
  diagnosis : Option String
  note : Option String
  notes : Option String
  medications : List MedItem
  patient : Option PatientData
deriving DecidableEq, Repr

/-- A `Parsed` with every key absent. -/
def Parsed.empty : Parsed :=
  { action := "unknown", confidence := 0, visit := none, payment := none,
    diagnosis := none, note := none, notes := none, medications := [],
    patient := none }

/-! ## External store -/

/-- A patient row as read back by `patients_service.get_patient`. -/
structure PatientRow where
  doctor_id : String
  notes : Option String
deriving DecidableEq, Repr

/-- Ambient environment: the store read used by `_handle_add_note`, the
current date/time stamps, and the (abstracted) id the store assigns to
created rows. -/
structure Env where
  getPatient : String → Option PatientRow
  todayIso : String    -- date.today().isoformat()
  nowStamp : String    -- datetime.now().strftime("%d.%m.%Y %H:%M")
  newId : Option String

/-- Payload of `visits_service.create_visit`. -/
structure VisitPayload where
  visit_date : String
  next_visit_date : Option String
  notes : Option String
  status : Option String
deriving DecidableEq, Repr

/-- One write against the external data store. -/
inductive Write where
  | visit (doctorId patientId : String) (payload : VisitPayload)
  | payment (doctorId patientId : String) (amount : PyFloat) (paidAt : String)
      (comment : Option String) (currency : String)
  | patientUpdate (patientId doctorId : String)
      (diagnosis status notes : Option String)
  | medication (patientId doctorId name : String)
      (dosage comment : Option String)
deriving DecidableEq, Repr

/-- The downstream table a write goes to. -/
inductive Table where
  | visits | payments | patients | medications
deriving DecidableEq, Repr

def Write.table : Write → Table
  | .visit .. => .visits
  | .payment .. => .payments
  | .patientUpdate .. => .patients
  | .medication .. => .medications

/-- The `updated` payload of an `ActionResult` (dict shape abstracted to the
fields each branch puts in it). -/
inductive Updated where
  | visits (patientId : String) (rowId : Option String) (visitDate : String)
  | payments (patientId : String) (rowId : Option String) (amount : PyFloat)
      (currency : String)
  | patients (patientId : String) (fields : List String)
  | patientNote (patientId : String)
  | medications (patientId : String) (count : ℕ) (names : List (Option String))
deriving DecidableEq, Repr

/-- `voice_actions.ActionResult`. -/
structure ActionResult where
  performed_action : String
  updated : Option Updated
  warnings : List Warn
  needs_confirmation : Bool
deriving DecidableEq, Repr

/-- `voice_actions.VoiceActionError` reasons reachable in the model. -/
inductive VAErr where
  | patientNotFound
  | accessDenied
deriving DecidableEq, Repr

/-- `voice_actions.CONFIDENCE_THRESHOLD`. -/
def CONFIDENCE_THRESHOLD : ℚ := 3 / 4

/-! ## Handlers (`voice_actions.py`) -/

/-- `_handle_create_visit`. -/
def handle_create_visit (env : Env) (doctorId patientId : String)
    (parsed : Parsed) (warnings : List Warn) : ActionResult × List Write :=
  let vd := parsed.visit.getD VisitData.empty
  let visitDatePair :=
    if optTruthy vd.visit_date then (vd.visit_date.getD "", warnings)
    else (env.todayIso, warnings ++ [Warn.visitDateDefaulted])
  let visit_date := visitDatePair.1
  let warnings := visitDatePair.2
  let notes0 : Option String := if optTruthy vd.notes then vd.notes else none
  let notes1 : Option String :=
    if optTruthy vd.medications then
      match notes0 with
      | some n => some (n ++ "\nМедикаменты: " ++ vd.medications.getD "")
      | none => some ("Медикаменты: " ++ vd.medications.getD "")
    else notes0
  let notes2 : Option String :=
    if optTruthy parsed.diagnosis then
      match notes1 with
      | some n => some (n ++ "\nДиагноз: " ++ parsed.diagnosis.getD "")
      | none => some ("Диагноз: " ++ parsed.diagnosis.getD "")
    else notes1
  let payload : VisitPayload :=
    { visit_date := visit_date
      next_visit_date :=
        if optTruthy vd.next_visit_date then vd.next_visit_date else none
      notes := notes2
      status := none }
  ({ performed_action := "create_visit"
     updated := some (Updated.visits patientId env.newId visit_date)
     warnings := warnings
     needs_confirmation := false },
   [Write.visit doctorId patientId payload])

/-- `_handle_add_note`. -/
def handle_add_note (env : Env) (doctorId patientId : String)
    (parsed : Parsed) (warnings : List Warn) :
    Except VAErr (ActionResult × List Write) :=
  let note_text :=
    firstTruthy [parsed.note, (parsed.visit.getD VisitData.empty).notes,
      parsed.notes]
  match note_text with
  | none =>
    .ok ({ performed_action := "none", updated := none,
           warnings := warnings ++ [Warn.emptyNote],
           needs_confirmation := true }, [])
  | some nt =>
    match env.getPatient patientId with
    | none => .error VAErr.patientNotFound
    | some row =>
      if row.doctor_id ≠ doctorId then .error VAErr.accessDenied
      else
        let currentNotes := if optTruthy row.notes then row.notes.getD "" else ""
        let newNotes :=
          pyStripS (currentNotes ++ "\n\n[" ++ env.nowStamp ++ "] " ++ nt)
        .ok ({ performed_action := "add_note"
               updated := some (Updated.patientNote patientId)
               warnings := warnings
               needs_confirmation := false },
             [Write.patientUpdate patientId doctorId none none (some newNotes)])

/-- `_handle_update_visit`. -/
def handle_update_visit (env : Env) (doctorId patientId : String)
    (parsed : Parsed) (warnings : List Warn) :
    Except VAErr (ActionResult × List Write) :=
  let vd := parsed.visit.getD VisitData.empty
  let next_visit_date := vd.next_visit_date
  let notes := vd.notes
  if optTruthy next_visit_date then
    let payload : VisitPayload :=
      { visit_date := next_visit_date.getD ""
        next_visit_date := none
        notes := if optTruthy notes then notes else none
        status := some "scheduled" }
    .ok ({ performed_action := "schedule_visit"
           updated :=
             some (Updated.visits patientId env.newId (next_visit_date.getD ""))
           warnings := warnings
           needs_confirmation := false },
         [Write.visit doctorId patientId payload])
  else if optTruthy notes then
    handle_add_note env doctorId patientId { Parsed.empty with note := notes }
      warnings
  else
    .ok ({ performed_action := "none", updated := none,
           warnings := warnings ++ [Warn.noUpdateVisitData],
           needs_confirmation := true }, [])

/-- `_handle_create_payment`. -/
def handle_create_payment (env : Env) (doctorId patientId : String)
    (parsed : Parsed) (warnings : List Warn) : ActionResult × List Write :=
  let payment_data := parsed.payment.getD PaymentData.empty
  match payment_data.amount with
  | none =>
    ({ performed_action := "none", updated := none,
       warnings := warnings ++ [Warn.noPaymentAmount],
       needs_confirmation := true }, [])
  | some a =>
    if ¬ a.truthy then
      ({ performed_action := "none", updated := none,
         warnings := warnings ++ [Warn.noPaymentAmount],
         needs_confirmation := true }, [])
    else
      match a.toFloat with
      | none =>
        ({ performed_action := "none", updated := none,
           warnings := warnings ++ [Warn.invalidAmount],
           needs_confirmation := true }, [])
      | some x =>
        if x.leZero then
          ({ performed_action := "none", updated := none,
             warnings := warnings ++ [Warn.amountNotPositive],
             needs_confirmation := true }, [])
        else
          let currency :=
            if optTruthy payment_data.currency then payment_data.currency.getD ""
            else "AMD"
          let comment := payment_data.comment
          let vd := parsed.visit.getD VisitData.empty
          let paid_at :=
            if optTruthy vd.visit_date then vd.visit_date.getD ""
            else env.todayIso
          ({ performed_action := "create_payment"
             updated :=
               some (Updated.payments patientId env.newId x currency)
             warnings := warnings
             needs_confirmation := false },
           [Write.payment doctorId patientId x paid_at comment currency])

/-- `_handle_update_patient`. -/
def handle_update_patient (env : Env) (doctorId patientId : String)
    (parsed : Parsed) (warnings : List Warn) : ActionResult × List Write :=
  let pd := parsed.patient.getD PatientData.empty
  let diag : Option String :=
    if optTruthy pd.diagnosis then pd.diagnosis
    else if optTruthy parsed.diagnosis then parsed.diagnosis
    else none
  let status : Option String := if optTruthy pd.status then pd.status else none
  if diag = none ∧ status = none then
    ({ performed_action := "none", updated := none,
       warnings := warnings ++ [Warn.noPatientUpdateData],
       needs_confirmation := true }, [])
  else
    let fields :=
      (if diag.isSome then ["diagnosis"] else []) ++
      (if status.isSome then ["status"] else [])
    ({ performed_action := "update_patient"
       updated := some (Updated.patients patientId fields)
       warnings := warnings
       needs_confirmation := false },
     [Write.patientUpdate patientId doctorId diag status none])

/-- The body of the medications loop of `_handle_add_medications`: returns
the names of the created medication rows (in order) and the store writes. -/
def processMeds (doctorId patientId : String) :
    List MedItem → List String × List Write
  | [] => ([], [])
  | MedItem.notDict :: rest => processMeds doctorId patientId rest
  | MedItem.item name dose freq dur comment :: rest =>
    if optTruthy name then
      let parts :=
        (if optTruthy dose then [dose.getD ""] else []) ++
        (if optTruthy freq then [freq.getD ""] else []) ++
        (if optTruthy dur then [dur.getD ""] else [])
      let dosage : Option String :=
        if parts ≠ [] then some (String.intercalate ", " parts) else none
      let w := Write.medication patientId doctorId (name.getD "") dosage comment
      let rec' := processMeds doctorId patientId rest
      (name.getD "" :: rec'.1, w :: rec'.2)
    else processMeds doctorId patientId rest

/-- `"name1, name2".replace("\n", ",").split(",")`, stripped, empties
dropped, each surviving item wrapped as `{"name": item}`. -/
def parseMedsText (s : String) : List MedItem :=
  (((s.replace "\n" ",").splitOn ",").map (fun m => pyStripS m)).filter
    (fun m => m ≠ "") |>.map
    (fun m => MedItem.item (some m) none none none none)

/-- `_handle_add_medications`. -/
def handle_add_medications (env : Env) (doctorId patientId : String)
    (parsed : Parsed) (warnings : List Warn) : ActionResult × List Write :=
  let medications := parsed.medications
  let vd := parsed.visit.getD VisitData.empty
  let meds_text := vd.medications
  let medications :=
    if medications = [] ∧ optTruthy meds_text then
      parseMedsText (meds_text.getD "")
    else medications
  if medications = [] then
    ({ performed_action := "none", updated := none,
       warnings := warnings ++ [Warn.emptyMedsList],
       needs_confirmation := true }, [])
  else
    let made := processMeds doctorId patientId medications
    if made.1 = [] then
      ({ performed_action := "none", updated := none,
         warnings := warnings ++ [Warn.medsCreateFailed],
         needs_confirmation := true }, [])
    else
      ({ performed_action := "add_medication"
         updated :=
           some (Updated.medications patientId made.1.length (made.1.map some))
         warnings := warnings
         needs_confirmation := false },
       made.2)

/-- `apply_voice_action`.  The result pairs the returned `ActionResult` with
the list of store writes performed during the call. -/
def apply_voice_action (env : Env) (doctorId patientId : String)
    (parsed : Parsed) : Except VAErr (ActionResult × List Write) :=
  let action := parsed.action
  let confidence := parsed.confidence
  if confidence < CONFIDENCE_THRESHOLD then
    .ok ({ performed_action := "none", updated := none,
           warnings := [Warn.lowConfidence], needs_confirmation := true }, [])
  else if action = "create_visit" then
    .ok (handle_create_visit env doctorId patientId parsed [])
  else if action = "update_visit" then
    handle_update_visit env doctorId patientId parsed []
  else if action = "create_payment" then
    .ok (handle_create_payment env doctorId patientId parsed [])
  else if action = "update_patient" then
    .ok (handle_update_patient env doctorId patientId parsed [])
  else if action = "add_note" then
    handle_add_note env doctorId patientId parsed []
  else if action = "add_medication" then
    .ok (handle_add_medications env doctorId patientId parsed [])
  else if action = "unknown" then
    .ok ({ performed_action := "unknown", updated := none,
           warnings := [Warn.commandNotRecognized],
           needs_confirmation := true }, [])
  else
    .ok ({ performed_action := "unknown", updated := none,
           warnings := [Warn.unknownCommand], needs_confirmation := true }, [])

/-- `should_auto_commit`. -/
def should_auto_commit (parsed : Parsed) : Bool :=
  parsed.confidence ≥ CONFIDENCE_THRESHOLD

/-! ## Router invariants shared by several claims -/

/-- The invariant every `(ActionResult, writes)` pair returned by the router
satisfies: `needs_confirmation` marks exactly the no-op outcomes, writes are
a single row except for the medications loop, and all writes of one
invocation hit the same table. -/
def GoodResult (rw : ActionResult × List Write) : Prop :=
  (rw.1.needs_confirmation = true ↔
    (rw.1.performed_action = "none" ∨ rw.1.performed_action = "unknown")) ∧
  (rw.1.needs_confirmation = false ↔ rw.2 ≠ []) ∧
  (rw.2.length ≤ 1 ∨
    (rw.1.performed_action = "add_medication" ∧
      ∀ w ∈ rw.2, w.table = Table.medications)) ∧
  (∀ w ∈ rw.2, ∀ w' ∈ rw.2, w.table = w'.table)

theorem goodResult_none (u : Option Updated) (w : List Warn) :
    GoodResult ({ performed_action := "none", updated := u, warnings := w,
                  needs_confirmation := true }, []) := by
  refine ⟨by simp, by simp, by simp, by simp⟩

theorem goodResult_unknown (u : Option Updated) (w : List Warn) :
    GoodResult ({ performed_action := "unknown", updated := u, warnings := w,
                  needs_confirmation := true }, []) := by
  refine ⟨by simp, by simp, by simp, by simp⟩

theorem goodResult_write (a : String) (u : Option Updated) (w : List Warn)
    (wr : Write) (ha : ¬ (a = "none" ∨ a = "unknown")) :
    GoodResult ({ performed_action := a, updated := u, warnings := w,
                  needs_confirmation := false }, [wr]) := by
  refine ⟨by simpa using ha, by simp, by simp, by simp⟩

theorem processMeds_table (d p : String) (ms : List MedItem) :
    ∀ w ∈ (processMeds d p ms).2, w.table = Table.medications := by
  induction ms with
  | nil => intro w hw; simp [processMeds] at hw
  | cons m rest ih =>
    intro w hw
    cases m with
    | notDict =>
      rw [processMeds] at hw
      exact ih w hw
    | item name dose freq dur comment =>
      rw [processMeds] at hw
      by_cases hn : optTruthy name
      · simp only [hn, if_pos] at hw
        rcases List.mem_cons.mp hw with h | h
        · subst h; rfl
        · exact ih w h
      · simp only [hn] at hw
        exact ih w hw

theorem processMeds_length (d p : String) (ms : List MedItem) :
    (processMeds d p ms).1.length = (processMeds d p ms).2.length := by
  induction ms with
  | nil => rfl
  | cons m rest ih =>
    cases m with
    | notDict => rw [processMeds]; exact ih
    | item name dose freq dur comment =>
      rw [processMeds]
      by_cases hn : optTruthy name
      · simp only [hn, if_pos, List.length_cons]
        exact congrArg Nat.succ ih
      · simp only [hn]; exact ih

theorem good_create_visit (env : Env) (d p : String) (parsed : Parsed)
    (w0 : List Warn) : GoodResult (handle_create_visit env d p parsed w0) := by
  have ha : (handle_create_visit env d p parsed w0).1.performed_action =
      "create_visit" := rfl
  have hn : (handle_create_visit env d p parsed w0).1.needs_confirmation =
      false := rfl
  obtain ⟨w, hw⟩ : ∃ w, (handle_create_visit env d p parsed w0).2 = [w] :=
    ⟨_, rfl⟩
  refine ⟨?_, ?_, ?_, ?_⟩
  · rw [hn, ha]; simp
  · rw [hn, hw]; simp
  · rw [hw]; simp
  · rw [hw]; simp

theorem good_create_payment (env : Env) (d p : String) (parsed : Parsed)
    (w0 : List Warn) : GoodResult (handle_create_payment env d p parsed w0) := by
  unfold handle_create_payment
  dsimp only
  split
  · exact goodResult_none _ _
  split
  · exact goodResult_none _ _
  split
  · exact goodResult_none _ _
  split
  · exact goodResult_none _ _
  · exact goodResult_write _ _ _ _ (by simp)

theorem good_update_patient (env : Env) (d p : String) (parsed : Parsed)
    (w0 : List Warn) : GoodResult (handle_update_patient env d p parsed w0) := by
  unfold handle_update_patient
  dsimp only
  repeat' split
  all_goals first
    | exact goodResult_none _ _
    | (refine goodResult_write _ _ _ _ ?_; decide)

theorem good_add_note (env : Env) (d p : String) (parsed : Parsed)
    (w0 : List Warn) (rw : ActionResult × List Write)
    (h : handle_add_note env d p parsed w0 = .ok rw) : GoodResult rw := by
  unfold handle_add_note at h
  dsimp only at h
  repeat' split at h
  all_goals first
    | exact Except.noConfusion h
    | (injection h with h; subst h; exact goodResult_none _ _)
    | (injection h with h; subst h; refine goodResult_write _ _ _ _ ?_; decide)

theorem good_update_visit (env : Env) (d p : String) (parsed : Parsed)
    (w0 : List Warn) (rw : ActionResult × List Write)
    (h : handle_update_visit env d p parsed w0 = .ok rw) : GoodResult rw := by
  unfold handle_update_visit at h
  dsimp only at h
  split at h
  · injection h with h; subst h
    refine goodResult_write _ _ _ _ ?_; decide
  split at h
  · exact good_add_note _ _ _ _ _ _ h
  · injection h with h; subst h; exact goodResult_none _ _

theorem good_meds_core (env : Env) (d p : String) (w0 : List Warn)
    (meds : List MedItem) :
    GoodResult
      (if meds = [] then
        ({ performed_action := "none", updated := none,
           warnings := w0 ++ [Warn.emptyMedsList],
           needs_confirmation := true }, [])
      else if (processMeds d p meds).1 = [] then
        ({ performed_action := "none", updated := none,
           warnings := w0 ++ [Warn.medsCreateFailed],
           needs_confirmation := true }, [])
      else
        ({ performed_action := "add_medication",
           updated := some (Updated.medications p
             (processMeds d p meds).1.length ((processMeds d p meds).1.map some)),
           warnings := w0, needs_confirmation := false },
         (processMeds d p meds).2)) := by
  by_cases h0 : meds = []
  · rw [if_pos h0]; exact goodResult_none _ _
  · rw [if_neg h0]
    by_cases h1 : (processMeds d p meds).1 = []
    · rw [if_pos h1]
      exact goodResult_none _ _
    · rw [if_neg h1]
      have hlen := processMeds_length d p meds
      have h2 : (processMeds d p meds).2 ≠ [] := by
        intro hnil
        rw [hnil] at hlen
        simp only [List.length_nil] at hlen
        exact h1 (List.eq_nil_of_length_eq_zero hlen)
      refine ⟨by simp, by simpa using h2, ?_, ?_⟩
      · right; exact ⟨rfl, processMeds_table d p meds⟩
      · intro w hw w' hw'
        rw [processMeds_table d p meds w hw, processMeds_table d p meds w' hw']

theorem good_add_medications (env : Env) (d p : String) (parsed : Parsed)
    (w0 : List Warn) : GoodResult (handle_add_medications env d p parsed w0) := by
  unfold handle_add_medications
  dsimp only
  split
  · exact good_meds_core env d p w0 _
  · exact good_meds_core env d p w0 _

theorem apply_good (env : Env) (d p : String) (parsed : Parsed)
    (rw : ActionResult × List Write)
    (h : apply_voice_action env d p parsed = .ok rw) : GoodResult rw := by
  unfold apply_voice_action at h
  dsimp only at h
  repeat' split at h
  all_goals first
    | (injection h with h; subst h; exact goodResult_none _ _)
    | (injection h with h; subst h; exact goodResult_unknown _ _)
    | (injection h with h; subst h; exact good_create_visit _ _ _ _ _)
    | (injection h with h; subst h; exact good_create_payment _ _ _ _ _)
    | (injection h with h; subst h; exact good_update_patient _ _ _ _ _)
    | (injection h with h; subst h; exact good_add_medications _ _ _ _ _)
    | exact good_update_visit _ _ _ _ _ _ h
    | exact good_add_note _ _ _ _ _ _ h

/-! ## Concrete inputs used by witnesses and counterexamples -/

/-- A concrete environment: no patient rows, a fixed clock, ids abstracted
to `none`. -/
def env0 : Env :=
  { getPatient := fun _ => none, todayIso := "2025-01-06",
    nowStamp := "06.01.2025 12:00", newId := none }

/-- A fully-populated parsed command whose confidence is below 0.75. -/
def lowConfParsed : Parsed :=
  { action := "create_payment", confidence := 1 / 2,
    visit := some ⟨some "2025-01-06", none, some "checkup", none⟩,
    payment := some ⟨some (AmtV.num (PyFloat.fin 300000)), some "AMD", none⟩,
    diagnosis := some "caries", note := none, notes := none,
    medications := [], patient := none }

/-- An `add_medication` command naming two medications. -/
def twoMedsParsed : Parsed :=
  { Parsed.empty with
    action := "add_medication", confidence := 1,
    medications :=
      [MedItem.item (some "Amoxicillin") none none none none,
       MedItem.item (some "Ibuprofen") none none none none] }

/-- A `create_payment` command whose amount is the float `+inf`. -/
def infPaymentParsed : Parsed :=
  { Parsed.empty with
    action := "create_payment", confidence := 1,
    payment := some ⟨some (AmtV.num PyFloat.pinf), none, none⟩ }

/-- A bare `create_visit` command (no visit dict at all). -/
def visitOnlyParsed : Parsed :=
  { Parsed.empty with action := "create_visit", confidence := 1 }

/-- An ordinary `create_payment` command for 20000 AMD. -/
def payParsed : Parsed :=
  { Parsed.empty with
    action := "create_payment", confidence := 1,
    payment := some ⟨some (AmtV.num (PyFloat.fin 20000)), some "AMD", none⟩ }

/-! ## C1 — confidence gate -/

/-- C1: for every parsed voice command and every doctor/patient pair, if the
command's confidence is below the threshold 0.75, `apply_voice_action`
returns `performed_action = "none"`, `updated = null`,
`needs_confirmation = true`, and performs no store write, regardless of the
other fields. -/
theorem confidence_gate_no_write (env : Env) (doctorId patientId : String)
    (parsed : Parsed) (h : parsed.confidence < CONFIDENCE_THRESHOLD) :
    apply_voice_action env doctorId patientId parsed =
      .ok ({ performed_action := "none", updated := none,
             warnings := [Warn.lowConfidence], needs_confirmation := true },
           []) := by
  unfold apply_voice_action
  rw [if_pos h]

/-- Witness for C1 at a fully-populated command with confidence 0.5. -/
theorem confidence_gate_no_write_witness :
    lowConfParsed.confidence < CONFIDENCE_THRESHOLD ∧
    apply_voice_action env0 "doc" "pat" lowConfParsed =
      .ok ({ performed_action := "none", updated := none,
             warnings := [Warn.lowConfidence], needs_confirmation := true },
           []) :=
  ⟨by norm_num [lowConfParsed, CONFIDENCE_THRESHOLD],
   confidence_gate_no_write env0 "doc" "pat" lowConfParsed
     (by norm_num [lowConfParsed, CONFIDENCE_THRESHOLD])⟩

/-! ## C3 — write multiplicity -/

/-- C3 counterexample: an `add_medication` command naming two medications
performs two store writes in a single `apply_voice_action` invocation, so
"at most one write per invocation" is false on the code. -/
theorem two_medications_two_writes :
    apply_voice_action env0 "doc" "pat" twoMedsParsed =
      .ok ({ performed_action := "add_medication",
             updated := some (Updated.medications "pat" 2
               [some "Amoxicillin", some "Ibuprofen"]),
             warnings := [], needs_confirmation := false },
           [Write.medication "pat" "doc" "Amoxicillin" none none,
            Write.medication "pat" "doc" "Ibuprofen" none none]) := by
  have hc : ¬ twoMedsParsed.confidence < CONFIDENCE_THRESHOLD := by
    show ¬ (1 : ℚ) < 3 / 4
    norm_num
  unfold apply_voice_action
  dsimp only
  rw [if_neg hc]
  rfl

/-- C3 (amended): every `apply_voice_action` invocation performs at most one
store write, except `add_medication`, which performs one medication-row
write per named item; in every case all writes of one invocation target the
same downstream table (a visit action never also writes a payment). -/
theorem writes_single_entity (env : Env) (d p : String) (parsed : Parsed)
    (res : ActionResult) (ws : List Write)
    (h : apply_voice_action env d p parsed = .ok (res, ws)) :
    (ws.length ≤ 1 ∨
      (res.performed_action = "add_medication" ∧
        ∀ w ∈ ws, w.table = Table.medications)) ∧
    ∀ w ∈ ws, ∀ w' ∈ ws, w.table = w'.table := by
  have hg := apply_good env d p parsed (res, ws) h
  exact ⟨hg.2.2.1, hg.2.2.2⟩

/-- Witness for the amended C3 at a concrete visit command. -/
theorem writes_single_entity_witness :
    ∃ res ws,
      apply_voice_action env0 "doc" "pat" visitOnlyParsed = .ok (res, ws) ∧
      ((ws.length ≤ 1 ∨
        (res.performed_action = "add_medication" ∧
          ∀ w ∈ ws, w.table = Table.medications)) ∧
       ∀ w ∈ ws, ∀ w' ∈ ws, w.table = w'.table) := by
  have hc : ¬ visitOnlyParsed.confidence < CONFIDENCE_THRESHOLD := by
    show ¬ (1 : ℚ) < 3 / 4
    norm_num
  have h : apply_voice_action env0 "doc" "pat" visitOnlyParsed =
      .ok ({ performed_action := "create_visit",
             updated := some (Updated.visits "pat" none "2025-01-06"),
             warnings := [Warn.visitDateDefaulted],
             needs_confirmation := false },
           [Write.visit "doc" "pat" ⟨"2025-01-06", none, none, none⟩]) := by
    unfold apply_voice_action
    dsimp only
    rw [if_neg hc]
    rfl
  exact ⟨_, _, h, writes_single_entity env0 "doc" "pat" _ _ _ h⟩

/-! ## C9 — create_payment validation -/

/-- C9 counterexample: an amount equal to the float `+inf` is not rejected —
`float('inf') <= 0` is false, so the handler writes a payment whose amount
is not finite, refuting "validated as a finite positive number". -/
theorem nonfinite_amount_is_written :
    apply_voice_action env0 "doc" "pat" infPaymentParsed =
      .ok ({ performed_action := "create_payment",
             updated := some (Updated.payments "pat" none PyFloat.pinf "AMD"),
             warnings := [], needs_confirmation := false },
           [Write.payment "doc" "pat" PyFloat.pinf "2025-01-06" none "AMD"]) := by
  have hc : ¬ infPaymentParsed.confidence < CONFIDENCE_THRESHOLD := by
    show ¬ (1 : ℚ) < 3 / 4
    norm_num
  unfold apply_voice_action
  dsimp only
  rw [if_neg hc]
  rfl

/-- C9 (amended): the `create_payment` handler writes a payment record
exactly when the amount is truthy and `float(amount)` succeeds with a value
`x` for which `x <= 0` is false — positivity is enforced for finite values,
but NaN and `+inf` also pass, since neither compares `<= 0` (the handler
never checks finiteness).  In every other case (amount missing, falsy,
non-numeric, or `<= 0`) it performs no write and returns
`performed_action = "none"` with `needs_confirmation = true`.  When it does
write, the currency defaults to `"AMD"` if absent/empty and the paid-on
date defaults to the visit date when present, else today. -/
theorem create_payment_write_conditions (env : Env) (d p : String)
    (parsed : Parsed) (w0 : List Warn) :
    (match (parsed.payment.getD PaymentData.empty).amount with
     | none =>
       (handle_create_payment env d p parsed w0).2 = [] ∧
       (handle_create_payment env d p parsed w0).1.performed_action = "none" ∧
       (handle_create_payment env d p parsed w0).1.needs_confirmation = true
     | some a =>
       match a.toFloat with
       | none =>
         (handle_create_payment env d p parsed w0).2 = [] ∧
         (handle_create_payment env d p parsed w0).1.performed_action = "none" ∧
         (handle_create_payment env d p parsed w0).1.needs_confirmation = true
       | some x =>
         if a.truthy ∧ ¬ x.leZero then
           (handle_create_payment env d p parsed w0).1.performed_action =
             "create_payment" ∧
           (handle_create_payment env d p parsed w0).1.needs_confirmation =
             false ∧
           (handle_create_payment env d p parsed w0).2 =
             [Write.payment d p x
               (if optTruthy (parsed.visit.getD VisitData.empty).visit_date
                then (parsed.visit.getD VisitData.empty).visit_date.getD ""
                else env.todayIso)
               (parsed.payment.getD PaymentData.empty).comment
               (if optTruthy (parsed.payment.getD PaymentData.empty).currency
                then (parsed.payment.getD PaymentData.empty).currency.getD ""
                else "AMD")]
         else
           (handle_create_payment env d p parsed w0).2 = [] ∧
           (handle_create_payment env d p parsed w0).1.performed_action =
             "none" ∧
           (handle_create_payment env d p parsed w0).1.needs_confirmation =
             true) := by
  unfold handle_create_payment
  cases ha : (parsed.payment.getD PaymentData.empty).amount with
  | none => simp [ha]
  | some a =>
    simp only [ha]
    by_cases ht : a.truthy
    · cases hf : a.toFloat with
      | none => simp [ht, hf]
      | some x =>
        by_cases hz : x.leZero
        · simp [ht, hf, hz]
        · simp [ht, hf, hz]
    · cases hf : a.toFloat with
      | none => simp [ht, hf]
      | some x => simp [ht, hf]

/-! ## C10 — needs_confirmation tracks whether anything was written -/

/-- C10: every `ActionResult` returned by `apply_voice_action` has
`needs_confirmation = true` exactly when `performed_action` is `"none"` or
`"unknown"`, and `needs_confirmation = false` exactly when the invocation
performed at least one store write — the flag alone tells a caller whether
anything was written. -/
theorem needs_confirmation_iff_wrote (env : Env) (d p : String)
    (parsed : Parsed) (res : ActionResult) (ws : List Write)
    (h : apply_voice_action env d p parsed = .ok (res, ws)) :
    (res.needs_confirmation = true ↔
      (res.performed_action = "none" ∨ res.performed_action = "unknown")) ∧
    (res.needs_confirmation = false ↔ ws ≠ []) := by
  have hg := apply_good env d p parsed (res, ws) h
  exact ⟨hg.1, hg.2.1⟩

/-- Witness for C10 at a concrete payment command. -/
theorem needs_confirmation_iff_wrote_witness :
    ∃ res ws,
      apply_voice_action env0 "doc" "pat" payParsed = .ok (res, ws) ∧
      ((res.needs_confirmation = true ↔
        (res.performed_action = "none" ∨ res.performed_action = "unknown")) ∧
       (res.needs_confirmation = false ↔ ws ≠ [])) := by
  have hc : ¬ payParsed.confidence < CONFIDENCE_THRESHOLD := by
    show ¬ (1 : ℚ) < 3 / 4
    norm_num
  have h : apply_voice_action env0 "doc" "pat" payParsed =
      .ok ({ performed_action := "create_payment",
             updated :=
               some (Updated.payments "pat" none (PyFloat.fin 20000) "AMD"),
             warnings := [], needs_confirmation := false },
           [Write.payment "doc" "pat" (PyFloat.fin 20000) "2025-01-06" none
              "AMD"]) := by
    unfold apply_voice_action
    dsimp only
    rw [if_neg hc]
    rfl
  exact ⟨_, _, h, needs_confirmation_iff_wrote env0 "doc" "pat" _ _ _ h⟩

/-! ## `voice_service.VoiceParseResult` and the auto-parse endpoint -/

/-- `voice_service.VoiceParseResult`: the draft produced by the parse
pipeline.  `amount` is a float-or-`None` (after postprocessing it is always
a whole number, but the class stores a float). -/
structure VoiceParseResult where
  text : String
  visit_date : Option String
  next_visit_date : Option String
  diagnosis : Option String
  notes : Option String
  amount : Option ℚ
  currency : Option String
  warnings : List Warn
deriving DecidableEq, Repr

/-- The truthiness test `result.amount and result.amount > 0` of
`_infer_action_from_data` / `_calculate_confidence`. -/
def amountPos (r : VoiceParseResult) : Bool :=
  match r.amount with
  | none => false
  | some q => q != 0 && q > 0

/-- `voice.py _infer_action_from_data`. -/
def infer_action_from_data (r : VoiceParseResult) : String :=
  if amountPos r then "create_payment"
  else if optTruthy r.visit_date then "create_visit"
  else if optTruthy r.next_visit_date then "update_visit"
  else if optTruthy r.diagnosis then "update_patient"
  else if optTruthy r.notes then "add_note"
  else "unknown"

/-- `voice.py _calculate_confidence` (binary floating-point round-off of the
increments is idealised to exact rational arithmetic). -/
def calculate_confidence (r : VoiceParseResult) : ℚ :=
  let score : ℚ := 1 / 2
  let score := if amountPos r then score + 2 / 10 else score
  let score := if optTruthy r.visit_date then score + 15 / 100 else score
  let score := if optTruthy r.next_visit_date then score + 1 / 10 else score
  let score := if optTruthy r.diagnosis then score + 15 / 100 else score
  let score := if optTruthy r.notes then score + 1 / 10 else score
  let score := if optTruthy r.currency then score + 5 / 100 else score
  let score := score - (r.warnings.length : ℚ) * (5 / 100)
  max 0 (min 1 score)

/-- The parse-to-commit step of `voice.py auto_parse_voice` (lines 243-276):
infer the action, apply the guard that clears payment data for non-payment
actions, and build the `parsed` dict handed to `apply_voice_action`. -/
def build_parsed_data (r : VoiceParseResult) (patientId : String) : Parsed :=
  let inferred := infer_action_from_data r
  let payment_amount : Option ℚ :=
    if inferred ≠ "create_payment" then none else r.amount
  let payment_currency : Option String :=
    if inferred ≠ "create_payment" then none else r.currency
  { action := inferred
    confidence := calculate_confidence r
    visit := some
      { visit_date := r.visit_date, next_visit_date := r.next_visit_date,
        notes := r.notes, medications := none }
    payment := some
      { amount := payment_amount.map (fun q => AmtV.num (PyFloat.fin q)),
        currency := payment_currency, comment := none }
    diagnosis := r.diagnosis
    note := none
    notes := none
    medications := []
    patient := some { diagnosis := none, status := none } }

/-- The short-circuit step of `voice_service.process_voice` after
transcription: `parseStep` stands for the whole LLM-parsing continuation
(`parse_voice_text`), so the theorem quantifying over it shows the
empty-transcript case never invokes it. -/
def process_voice_after_stt (text : String)
    (parseStep : String → VoiceParseResult) : VoiceParseResult :=
  if pyStripS text = "" then
    { text := "", visit_date := none, next_visit_date := none,
      diagnosis := none, notes := none, amount := none, currency := none,
      warnings := [Warn.cantRecognize] }
  else parseStep text

/-! ## C7 — action tie-break priority -/

theorem amountPos_iff (r : VoiceParseResult) :
    amountPos r = true ↔ ∃ q, r.amount = some q ∧ 0 < q := by
  unfold amountPos
  cases h : r.amount with
  | none => simp
  | some q =>
    simp only [Bool.and_eq_true, bne_iff_ne, ne_eq, decide_eq_true_eq,
      Option.some.injEq]
    constructor
    · rintro ⟨hne, hq⟩
      exact ⟨q, rfl, hq⟩
    · rintro ⟨q', hq', hpos⟩
      cases hq'
      exact ⟨hpos.ne', hpos⟩

/-- C7: the classified action follows the tie-break priority, highest
first: positive amount → `create_payment`; else present visit date →
`create_visit`; else present next-visit date → `update_visit`; else present
diagnosis → `update_patient`; else present notes → `add_note`; else
`unknown`.  Presence is Python truthiness (non-`None`, non-empty). -/
theorem infer_action_tie_break (r : VoiceParseResult) :
    ((∃ q, r.amount = some q ∧ 0 < q) →
      infer_action_from_data r = "create_payment") ∧
    (¬ (∃ q, r.amount = some q ∧ 0 < q) → optTruthy r.visit_date = true →
      infer_action_from_data r = "create_visit") ∧
    (¬ (∃ q, r.amount = some q ∧ 0 < q) → optTruthy r.visit_date = false →
      optTruthy r.next_visit_date = true →
      infer_action_from_data r = "update_visit") ∧
    (¬ (∃ q, r.amount = some q ∧ 0 < q) → optTruthy r.visit_date = false →
      optTruthy r.next_visit_date = false → optTruthy r.diagnosis = true →
      infer_action_from_data r = "update_patient") ∧
    (¬ (∃ q, r.amount = some q ∧ 0 < q) → optTruthy r.visit_date = false →
      optTruthy r.next_visit_date = false → optTruthy r.diagnosis = false →
      optTruthy r.notes = true → infer_action_from_data r = "add_note") ∧
    (¬ (∃ q, r.amount = some q ∧ 0 < q) → optTruthy r.visit_date = false →
      optTruthy r.next_visit_date = false → optTruthy r.diagnosis = false →
      optTruthy r.notes = false → infer_action_from_data r = "unknown") := by
  have hp : ∀ b : Prop, (¬ (∃ q, r.amount = some q ∧ 0 < q)) →
      amountPos r = false := by
    intro _ hne
    cases hb : amountPos r with
    | false => rfl
    | true => exact absurd ((amountPos_iff r).mp hb) hne
  refine ⟨?_, ?_, ?_, ?_, ?_, ?_⟩
  · intro h
    unfold infer_action_from_data
    rw [(amountPos_iff r).mpr h]
    rfl
  · intro hna hv
    unfold infer_action_from_data
    rw [hp True hna, hv]
    rfl
  · intro hna hv hn
    unfold infer_action_from_data
    rw [hp True hna, hv, hn]
    rfl
  · intro hna hv hn hd
    unfold infer_action_from_data
    rw [hp True hna, hv, hn, hd]
    rfl
  · intro hna hv hn hd hno
    unfold infer_action_from_data
    rw [hp True hna, hv, hn, hd, hno]
    rfl
  · intro hna hv hn hd hno
    unfold infer_action_from_data
    rw [hp True hna, hv, hn, hd, hno]
    rfl

/-- A concrete draft: visit date plus a payment of 20000 AMD. -/
def payDraft : VoiceParseResult :=
  { text := "Сегодня визит, оплата 20000 dram",
    visit_date := some "2025-01-06", next_visit_date := none,
    diagnosis := none, notes := none, amount := some 20000,
    currency := some "AMD", warnings := [] }

/-- Witness for C7: with both a visit date and a positive amount present,
payment wins the tie-break. -/
theorem infer_action_tie_break_witness :
    infer_action_from_data payDraft = "create_payment" :=
  (infer_action_tie_break payDraft).1 ⟨20000, rfl, by norm_num⟩

/-! ## C2 — payment data cleared for non-payment actions -/

/-- A concrete draft whose model-emitted amount is the number 0 and whose
visit date is present — classified as `create_visit`. -/
def visitDraft : VoiceParseResult :=
  { text := "visit aysor", visit_date := some "2025-01-06",
    next_visit_date := none, diagnosis := none, notes := none,
    amount := some 0, currency := some "AMD", warnings := [] }

/-- C2: in `auto_parse_voice`, the `parsed` dict handed on to commit has
`payment.amount` and `payment.currency` equal to `null` whenever the
classified action is not `create_payment`, even if the model extracted a
number; amount and currency are retained exactly when the classified action
is `create_payment`. -/
theorem guard_clears_payment_data (r : VoiceParseResult) (patientId : String) :
    (infer_action_from_data r ≠ "create_payment" →
      (build_parsed_data r patientId).payment =
        some { amount := none, currency := none, comment := none }) ∧
    (infer_action_from_data r = "create_payment" →
      (build_parsed_data r patientId).payment =
        some { amount := r.amount.map (fun q => AmtV.num (PyFloat.fin q)),
               currency := r.currency, comment := none }) := by
  constructor
  · intro h
    simp [build_parsed_data, h]
  · intro h
    simp [build_parsed_data, h]

/-- Witness for C2: the draft with a visit date and the number 0 extracted
is classified `create_visit` and its payment dict is nulled out. -/
theorem guard_clears_payment_data_witness :
    (build_parsed_data visitDraft "pat").payment =
      some { amount := none, currency := none, comment := none } :=
  (guard_clears_payment_data visitDraft "pat").1 (by decide)

/-! ## C8 — empty transcription short-circuits the pipeline -/

theorem pyStripL_eq_nil (l : List Char) (h : ∀ c ∈ l, isPySpace c = true) :
    pyStripL l = [] := by
  unfold pyStripL
  have h1 : l.dropWhile isPySpace = [] := by
    rw [List.dropWhile_eq_nil_iff]
    exact fun c hc => h c hc
  rw [h1]
  rfl

/-- C8: whenever transcription produces an empty or whitespace-only text,
`process_voice` returns immediately with `transcript = ""`, exactly one
"could not recognize speech" warning, every structured field absent, and
without invoking the LLM-parsing continuation at all (the result does not
depend on `parseStep`), hence no downstream write. -/
theorem empty_transcript_short_circuit (text : String)
    (parseStep : String → VoiceParseResult)
    (h : ∀ c ∈ text.data, isPySpace c = true) :
    process_voice_after_stt text parseStep =
      { text := "", visit_date := none, next_visit_date := none,
        diagnosis := none, notes := none, amount := none, currency := none,
        warnings := [Warn.cantRecognize] } := by
  unfold process_voice_after_stt
  rw [if_pos]
  show pyStripS text = ""
  unfold pyStripS
  rw [pyStripL_eq_nil text.data h]

/-- Witness for C8 on a whitespace-only transcript, with a parse
continuation that would return a fully-populated draft if it were called. -/
theorem empty_transcript_short_circuit_witness :
    process_voice_after_stt "  \n " (fun _ => payDraft) =
      { text := "", visit_date := none, next_visit_date := none,
        diagnosis := none, notes := none, amount := none, currency := none,
        warnings := [Warn.cantRecognize] } :=
  empty_transcript_short_circuit "  \n " (fun _ => payDraft) (by decide)

/-! ## `armenian_normalizer.py` — amount normalization -/

/-- `armenian_normalizer.ARMENIAN_NUMBER_WORDS` (insertion order kept). -/
def ARMENIAN_NUMBER_WORDS : List (String × ℕ) :=
  [("hazar", 1000), ("hazari", 1000), ("hazarov", 1000),
   ("հազար", 1000), ("հզր", 1000),
   ("million", 1000000), ("milion", 1000000), ("միլիոն", 1000000),
   ("haryur", 100), ("հարյուր", 100)]

/-- `armenian_normalizer.RUSSIAN_NUMBER_WORDS`. -/
def RUSSIAN_NUMBER_WORDS : List (String × ℕ) :=
  [("тысяч", 1000), ("тыс", 1000), ("tysyach", 1000),
   ("миллион", 1000000), ("сот", 100)]

/-- `armenian_normalizer.ENGLISH_NUMBER_WORDS`. -/
def ENGLISH_NUMBER_WORDS : List (String × ℕ) :=
  [("thousand", 1000), ("k", 1000), ("million", 1000000),
   ("mil", 1000000), ("m", 1000000), ("hundred", 100)]

/-- Python `dict.update` on insertion-ordered association lists: an existing
key keeps its position and takes the new value; new keys are appended. -/
def dictUpdate (base upd : List (String × ℕ)) : List (String × ℕ) :=
  (base.map fun kv => (kv.1, (upd.lookup kv.1).getD kv.2)) ++
    upd.filter (fun kv => base.lookup kv.1 = none)

/-- The locale-priority-merged number-word dictionary of `normalize_amount`. -/
def number_words (locale : String) : List (String × ℕ) :=
  if locale = "hy" then
    dictUpdate (dictUpdate ENGLISH_NUMBER_WORDS RUSSIAN_NUMBER_WORDS)
      ARMENIAN_NUMBER_WORDS
  else if locale = "ru" then
    dictUpdate (dictUpdate ENGLISH_NUMBER_WORDS ARMENIAN_NUMBER_WORDS)
      RUSSIAN_NUMBER_WORDS
  else
    dictUpdate (dictUpdate RUSSIAN_NUMBER_WORDS ARMENIAN_NUMBER_WORDS)
      ENGLISH_NUMBER_WORDS

/-- A thousands separator (`[.,]`). -/
def sepChar (c : Char) : Bool := c = '.' || c = ','

/-- Head of the remaining input is a digit (the `(?!\d)` lookahead test). -/
def headIsDig : List Char → Bool
  | [] => false
  | c :: _ => isDig c

/-- Pattern 1 of `normalize_amount` at one position: match
`(\d{1,3})[.,](\d{3})([.,](\d{3}))?(?!\d)` at the head of `s`, with the
first group of length exactly `k` and the optional group tried greedily
first, exactly as the backtracking regex engine does.  Returns the
concatenated digit groups. -/
def thousandsAtK (k : ℕ) (s : List Char) : Option (List Char) :=
  let g1 := s.take k
  if g1.length = k ∧ g1.all isDig then
    match s.drop k with
    | [] => none
    | c :: rest =>
      if sepChar c then
        let g2 := rest.take 3
        if g2.length = 3 ∧ g2.all isDig then
          match rest.drop 3 with
          | [] => some (g1 ++ g2)
          | c2 :: rest2 =>
            if sepChar c2 then
              let g3 := rest2.take 3
              if g3.length = 3 ∧ g3.all isDig ∧
                  headIsDig (rest2.drop 3) = false then
                some (g1 ++ g2 ++ g3)
              else some (g1 ++ g2)
            else if isDig c2 then none
            else some (g1 ++ g2)
        else none
      else none
  else none

/-- Pattern 1 at one position with the `\d{1,3}` quantifier backtracking
from the greediest group length down. -/
def thousandsAt (s : List Char) : Option (List Char) :=
  (thousandsAtK 3 s).orElse fun _ =>
    (thousandsAtK 2 s).orElse fun _ => thousandsAtK 1 s

/-- `re.search` for pattern 1: leftmost position wins. -/
def thousandsSearch : List Char → Option (List Char)
  | [] => none
  | c :: rest =>
    match thousandsAt (c :: rest) with
    | some g => some g
    | none => thousandsSearch rest

/-- Pattern 2 of `normalize_amount` at one position: match
`(\d+(\.\d+)?)\s*word` at the head of `s`.  Returns the captured number as
`(integer part, fractional digits value, fractional length)`.  The regex
tries the greedy fractional alternative first and then the one without it,
exactly like the backtracking engine. -/
def wordMatchAt (w : List Char) (s : List Char) : Option (ℕ × ℕ × ℕ) :=
  let d1 := s.takeWhile isDig
  if d1 = [] then none
  else
    let r1 := s.drop d1.length
    let tryFrac : Option (ℕ × ℕ × ℕ) :=
      match r1 with
      | '.' :: r2 =>
        let d2 := r2.takeWhile isDig
        if d2 = [] then none
        else
          let r3 := (r2.drop d2.length).dropWhile isPySpace
          if w.isPrefixOf r3 then
            some (natOfDigits d1, natOfDigits d2, d2.length)
          else none
      | _ => none
    match tryFrac with
    | some v => some v
    | none =>
      if w.isPrefixOf (r1.dropWhile isPySpace) then
        some (natOfDigits d1, 0, 0)
      else none

/-- `re.search` for one multiplier word: leftmost position wins. -/
def wordSearch (w : List Char) : List Char → Option (ℕ × ℕ × ℕ)
  | [] => none
  | c :: rest =>
    match wordMatchAt w (c :: rest) with
    | some v => some v
    | none => wordSearch w rest

/-- `int(float(group1) * multiplier)` computed exactly:
`(I + F/10^k) * mult` truncated towards zero (all values non-negative). -/
def wordAmount (I F k mult : ℕ) : ℕ := I * mult + F * mult / 10 ^ k

/-- Pattern 2 of `normalize_amount`: the first dictionary word whose regex
matches anywhere in the text wins. -/
def pattern2 : List (String × ℕ) → List Char → Option ℕ
  | [], _ => none
  | (w, mult) :: rest, s =>
    match wordSearch w.data s with
    | some (i, f, k) => some (wordAmount i f k mult)
    | none => pattern2 rest s

/-- Pattern 3 of `normalize_amount`: leftmost `(\d+([.,]\d+)?)`; a 3-digit
fractional part means a thousands grouping, otherwise `int(float(...))`
truncates the decimal (idealised to exact truncation). -/
def pattern3 : List Char → Option ℕ
  | [] => none
  | c :: rest =>
    if isDig c then
      let d1 := (c :: rest).takeWhile isDig
      let r1 := (c :: rest).drop d1.length
      match r1 with
      | [] => some (natOfDigits d1)
      | sep :: r2 =>
        if sepChar sep ∧ headIsDig r2 then
          let d2 := r2.takeWhile isDig
          if d2.length = 3 then some (natOfDigits (d1 ++ d2))
          else some (natOfDigits d1)
        else some (natOfDigits d1)
    else pattern3 rest

/-- `armenian_normalizer.normalize_amount`.  The returned integer is the
non-negative amount; the warning list is always empty (the source never
appends to it). -/
def normalize_amount (text : String) (locale : String) :
    Option ℕ × List Warn :=
  let text_lower := pyStripL (pyLowerL text.data)
  if text_lower = [] then (none, [])
  else
    match thousandsSearch text_lower with
    | some g => (some (natOfDigits g), [])
    | none =>
      match pattern2 (number_words locale) text_lower with
      | some n => (some n, [])
      | none =>
        match pattern3 text_lower with
        | some n => (some n, [])
        | none => (none, [])

/-! ## `armenian_normalizer.py` — currency detection -/

/-- `armenian_normalizer.AMD_TOKENS`. -/
def AMD_TOKENS : List String :=
  ["դրամ", "դրամի", "դրամով", "dram", "drams", "drm", "dramov", "amd"]

/-- `armenian_normalizer.RUB_TOKENS`. -/
def RUB_TOKENS : List String :=
  ["руб", "рублей", "рубля", "рубль", "рубли", "ruble", "rubles", "rub"]

/-- `armenian_normalizer.USD_TOKENS`. -/
def USD_TOKENS : List String :=
  ["դոլար", "դոլլար", "dollar", "dollars", "usd", "$"]

/-- `any(token in text_lower for token in toks)`. -/
def hasTok (toks : List String) (textLower : List Char) : Bool :=
  toks.any fun t => containsSub textLower t.data

/-- `armenian_normalizer.detect_currency`. -/
def detect_currency (text locale default_currency : String) :
    String × List Warn :=
  let text_lower := pyLowerL text.data
  let has_amd := hasTok AMD_TOKENS text_lower
  let has_rub := hasTok RUB_TOKENS text_lower
  let has_usd := hasTok USD_TOKENS text_lower
  if has_amd then
    if has_rub then ("AMD", [Warn.amdRubConflict]) else ("AMD", [])
  else if has_usd then ("USD", [])
  else if has_rub then
    if locale = "hy" then ("AMD", [Warn.rubInArmenianLocale]) else ("RUB", [])
  else if locale = "hy" ∨ default_currency = "AMD" then ("AMD", [])
  else (default_currency, [])

/-! ## C4 — normalize_amount -/

theorem toNat_ofNat_valid (n : ℕ) (h : n.isValidChar) :
    (Char.ofNat n).toNat = n := by
  unfold Char.ofNat
  rw [dif_pos h]
  rfl

theorem isDig_pyLowerChar_false (c : Char) (h : isDig c = false) :
    isDig (pyLowerChar c) = false := by
  unfold pyLowerChar
  dsimp only
  split
  next h1 =>
    have hv : (c.toNat + 32).isValidChar := Or.inl (by omega)
    unfold isDig
    rw [toNat_ofNat_valid _ hv]
    have h2 : ¬ (c.toNat + 32 ≤ 57) := by omega
    simp [h2]
  split
  next h1 =>
    have hv : (c.toNat + 32).isValidChar := Or.inl (by omega)
    unfold isDig
    rw [toNat_ofNat_valid _ hv]
    have h2 : ¬ (c.toNat + 32 ≤ 57) := by omega
    simp [h2]
  split
  next h1 => decide
  split
  next h1 =>
    have hv : (c.toNat + 48).isValidChar := Or.inl (by omega)
    unfold isDig
    rw [toNat_ofNat_valid _ hv]
    have h2 : ¬ (c.toNat + 48 ≤ 57) := by omega
    simp [h2]
  exact h

theorem mem_pyStripL {c : Char} {l : List Char} (h : c ∈ pyStripL l) :
    c ∈ l := by
  unfold pyStripL at h
  rw [List.mem_reverse] at h
  have h2 : c ∈ (l.dropWhile isPySpace).reverse :=
    (List.dropWhile_sublist _).subset h
  rw [List.mem_reverse] at h2
  exact (List.dropWhile_sublist _).subset h2

theorem thousandsAtK_none (k : ℕ) (hk : k ≠ 0) (s : List Char)
    (h : ∀ c ∈ s, isDig c = false) : thousandsAtK k s = none := by
  unfold thousandsAtK
  rw [if_neg]
  rintro ⟨h1, h2⟩
  cases s with
  | nil =>
    rw [List.take_nil, List.length_nil] at h1
    exact hk h1.symm
  | cons c rest =>
    cases k with
    | zero => exact hk rfl
    | succ k' =>
      rw [List.take_succ_cons, List.all_cons,
        h c (List.mem_cons_self c rest)] at h2
      simp at h2

theorem thousandsAt_none (s : List Char) (h : ∀ c ∈ s, isDig c = false) :
    thousandsAt s = none := by
  unfold thousandsAt
  rw [thousandsAtK_none 3 (by omega) s h, thousandsAtK_none 2 (by omega) s h,
    thousandsAtK_none 1 (by omega) s h]
  rfl

theorem thousandsSearch_none (s : List Char)
    (h : ∀ c ∈ s, isDig c = false) : thousandsSearch s = none := by
  induction s with
  | nil => rfl
  | cons c rest ih =>
    rw [thousandsSearch, thousandsAt_none _ h]
    exact ih fun c' hc' => h c' (List.mem_cons_of_mem _ hc')

theorem wordMatchAt_none (w : List Char) (s : List Char)
    (h : ∀ c ∈ s, isDig c = false) : wordMatchAt w s = none := by
  unfold wordMatchAt
  cases s with
  | nil => rfl
  | cons c rest =>
    have hc := h c (List.mem_cons_self c rest)
    simp [List.takeWhile_cons, hc]

theorem wordSearch_none (w : List Char) (s : List Char)
    (h : ∀ c ∈ s, isDig c = false) : wordSearch w s = none := by
  induction s with
  | nil => rfl
  | cons c rest ih =>
    rw [wordSearch, wordMatchAt_none _ _ h]
    exact ih fun c' hc' => h c' (List.mem_cons_of_mem _ hc')

theorem pattern2_none (words : List (String × ℕ)) (s : List Char)
    (h : ∀ c ∈ s, isDig c = false) : pattern2 words s = none := by
  induction words with
  | nil => rfl
  | cons wm rest ih =>
    rw [pattern2, wordSearch_none _ _ h]
    exact ih

theorem pattern3_none (s : List Char) (h : ∀ c ∈ s, isDig c = false) :
    pattern3 s = none := by
  induction s with
  | nil => rfl
  | cons c rest ih =>
    rw [pattern3, h c (List.mem_cons_self c rest)]
    simp only [Bool.false_eq_true, if_false]
    exact ih fun c' hc' => h c' (List.mem_cons_of_mem _ hc')

/-- C4: `normalize_amount "300.000 dram" = 300000`,
`normalize_amount "300 hazar" = 300000`, `normalize_amount "" = None`; and
on any text containing no digit at all it returns `None` together with an
empty warning list — it never fabricates an amount. -/
theorem normalize_amount_spec :
    normalize_amount "300.000 dram" "hy" = (some 300000, []) ∧
    normalize_amount "300 hazar" "hy" = (some 300000, []) ∧
    normalize_amount "" "hy" = (none, []) ∧
    ∀ (text locale : String), (∀ c ∈ text.data, isDig c = false) →
      normalize_amount text locale = (none, []) := by
  refine ⟨rfl, rfl, rfl, ?_⟩
  intro text locale h
  have hl : ∀ c ∈ pyStripL (pyLowerL text.data), isDig c = false := by
    intro c hc
    have hc' := mem_pyStripL hc
    rw [pyLowerL, List.mem_map] at hc'
    obtain ⟨c', hmem, rfl⟩ := hc'
    exact isDig_pyLowerChar_false c' (h c' hmem)
  unfold normalize_amount
  by_cases he : pyStripL (pyLowerL text.data) = []
  · rw [if_pos he]
  · rw [if_neg he, thousandsSearch_none _ hl,
      pattern2_none (number_words locale) _ hl, pattern3_none _ hl]

/-- Witness for C4's universal clause on a digit-free text. -/
theorem normalize_amount_spec_witness :
    normalize_amount "vaghe galu dram" "hy" = (none, []) :=
  normalize_amount_spec.2.2.2 "vaghe galu dram" "hy" (by decide)

/-! ## C5 — currency decision order -/

/-- C5 (amended): `detect_currency` follows the decision order — AMD tokens
win (with a warning when RUB tokens are also present); else USD; else RUB,
unless the locale is Armenian, which falls back to AMD with a warning; with
no tokens at all the result is AMD when the locale is Armenian or the
caller-supplied default is AMD, and otherwise the caller-supplied default.
The clinic timezone plays no role in `detect_currency`. -/
theorem detect_currency_decision_order (text locale default_currency : String) :
    (hasTok AMD_TOKENS (pyLowerL text.data) = true →
      (detect_currency text locale default_currency).1 = "AMD" ∧
      (hasTok RUB_TOKENS (pyLowerL text.data) = true →
        (detect_currency text locale default_currency).2 ≠ [])) ∧
    (hasTok AMD_TOKENS (pyLowerL text.data) = false →
      hasTok USD_TOKENS (pyLowerL text.data) = true →
      detect_currency text locale default_currency = ("USD", [])) ∧
    (hasTok AMD_TOKENS (pyLowerL text.data) = false →
      hasTok USD_TOKENS (pyLowerL text.data) = false →
      hasTok RUB_TOKENS (pyLowerL text.data) = true →
      (locale = "hy" →
        detect_currency text locale default_currency =
          ("AMD", [Warn.rubInArmenianLocale])) ∧
      (locale ≠ "hy" →
        detect_currency text locale default_currency = ("RUB", []))) ∧
    (hasTok AMD_TOKENS (pyLowerL text.data) = false →
      hasTok USD_TOKENS (pyLowerL text.data) = false →
      hasTok RUB_TOKENS (pyLowerL text.data) = false →
      ((locale = "hy" ∨ default_currency = "AMD") →
        detect_currency text locale default_currency = ("AMD", [])) ∧
      (¬ (locale = "hy" ∨ default_currency = "AMD") →
        detect_currency text locale default_currency =
          (default_currency, []))) := by
  refine ⟨?_, ?_, ?_, ?_⟩
  · intro ha
    unfold detect_currency
    dsimp only
    rw [ha]
    by_cases hr : hasTok RUB_TOKENS (pyLowerL text.data) = true
    · rw [hr]; exact ⟨rfl, fun _ => by simp⟩
    · rw [Bool.not_eq_true] at hr
      rw [hr]
      exact ⟨rfl, fun hr' => absurd hr' (by simp [hr])⟩
  · intro ha hu
    unfold detect_currency
    dsimp only
    rw [ha, hu]
    rfl
  · intro ha hu hr
    unfold detect_currency
    dsimp only
    rw [ha, hu, hr]
    constructor
    · intro hl; rw [if_pos hl]; rfl
    · intro hl; rw [if_neg hl]; rfl
  · intro ha hu hr
    unfold detect_currency
    dsimp only
    rw [ha, hu, hr]
    constructor
    · intro hd; rw [if_pos hd]; rfl
    · intro hd; rw [if_neg hd]; rfl

/-- Witness for the amended C5 on the spec's own conflict example:
`detect_currency("300 dram rubles", locale=hy)` yields AMD with a warning. -/
theorem detect_currency_decision_order_witness :
    (detect_currency "300 dram rubles" "hy" "AMD").1 = "AMD" ∧
    (detect_currency "300 dram rubles" "hy" "AMD").2 ≠ [] := by
  have h := (detect_currency_decision_order "300 dram rubles" "hy" "AMD").1
    (by decide)
  exact ⟨h.1, h.2 (by decide)⟩

/-- Follows the spec's words (§4.5, decision order): the claim's version of
the token-free default, in which the result is AMD "when the locale is
Armenian or the timezone is Armenia's".  The code's `detect_currency` has no
timezone parameter at all; this definition exists only to exhibit the
divergence. -/
def detect_currency_claimed (text locale timezone default_currency : String) :
    String :=
  let tl := pyLowerL text.data
  if hasTok AMD_TOKENS tl then "AMD"
  else if hasTok USD_TOKENS tl then "USD"
  else if hasTok RUB_TOKENS tl then
    (if locale = "hy" then "AMD" else "RUB")
  else if locale = "hy" ∨ timezone = "Asia/Yerevan" then "AMD"
  else default_currency

/-- C5 counterexample: a token-free text with a non-Armenian locale, the
clinic timezone set to Asia/Yerevan, and caller default USD.  The claim
requires AMD, but `detect_currency` cannot see the timezone and returns the
caller default USD. -/
theorem detect_currency_ignores_timezone :
    detect_currency "payment 50000" "ru" "USD" = ("USD", []) ∧
    detect_currency_claimed "payment 50000" "ru" "Asia/Yerevan" "USD" =
      "AMD" :=
  ⟨rfl, rfl⟩

/-! ## Calendar dates and `voice_service._validate_date` (C6)

Python `datetime.date` is modelled by a proleptic-Gregorian calendar date;
`date.toordinal` gives the order embedding under which Python's date
comparisons and `timedelta(days=n)` arithmetic are defined. -/

def isLeap (y : ℕ) : Bool := y % 4 = 0 && (y % 100 ≠ 0 || y % 400 = 0)

def daysInMonth (y m : ℕ) : ℕ :=
  if m = 2 then (if isLeap y then 29 else 28)
  else if m = 4 ∨ m = 6 ∨ m = 9 ∨ m = 11 then 30
  else 31

structure CalDate where
  year : ℕ
  month : ℕ
  day : ℕ
deriving DecidableEq, Repr

def daysBeforeMonth (y m : ℕ) : ℕ :=
  (List.range (m - 1)).foldl (fun a i => a + daysInMonth y (i + 1)) 0

/-- Python `date.toordinal`: day 1 is 0001-01-01. -/
def toOrd (d : CalDate) : ℕ :=
  365 * (d.year - 1) + (d.year - 1) / 4 - (d.year - 1) / 100
    + (d.year - 1) / 400 + daysBeforeMonth d.year d.month + d.day

/-- Calendar validity as `datetime.date` enforces it (year 1..9999 — the
upper bound is automatic for a four-digit string). -/
def validYMD (y m d : ℕ) : Bool :=
  1 ≤ y && 1 ≤ m && m ≤ 12 && 1 ≤ d && d ≤ daysInMonth y m

def digChar (n : ℕ) : Char := Char.ofNat (48 + n % 10)

def pad4 (n : ℕ) : List Char :=
  [digChar (n / 1000), digChar (n / 100), digChar (n / 10), digChar n]

def pad2 (n : ℕ) : List Char := [digChar (n / 10), digChar n]

/-- `date.isoformat()`: canonical `YYYY-MM-DD`. -/
def isoFormat (d : CalDate) : String :=
  ⟨pad4 d.year ++ '-' :: (pad2 d.month ++ '-' :: pad2 d.day)⟩

/-- `date.fromisoformat` on the canonical `YYYY-MM-DD` layout (the only
shape the pipeline produces; alternative ISO-8601 layouts accepted by
newer Python are not modelled). -/
def parseIso (s : String) : Option CalDate :=
  match s.data with
  | [y1, y2, y3, y4, '-', m1, m2, '-', d1, d2] =>
    if isDig y1 && isDig y2 && isDig y3 && isDig y4 && isDig m1 && isDig m2
        && isDig d1 && isDig d2 then
      let y := 1000 * digVal y1 + 100 * digVal y2 + 10 * digVal y3 + digVal y4
      let m := 10 * digVal m1 + digVal m2
      let d := 10 * digVal d1 + digVal d2
      if validYMD y m d then some ⟨y, m, d⟩ else none
    else none
  | _ => none

/-- `voice_service._validate_date`.  Date comparison and `timedelta`
arithmetic are expressed through `toOrd`. -/
def validate_date (dateStr : Option String) (today : CalDate)
    (maxFutureDays : ℤ) : Option String × List Warn :=
  match dateStr with
  | none => (none, [])
  | some s =>
    if s = "" then (none, [])
    else
      match parseIso s with
      | none => (none, [Warn.dateFormatInvalid])
      | some d =>
        if (toOrd d : ℤ) < (toOrd today : ℤ) - 30 then
          (none, [Warn.dateTooPast])
        else if (toOrd d : ℤ) > (toOrd today : ℤ) + maxFutureDays then
          (none, [Warn.dateTooFuture])
        else (some (isoFormat d), [])

theorem digChar_digVal (c : Char) (h : isDig c = true) :
    digChar (digVal c) = c := by
  unfold digChar digVal
  unfold isDig at h
  simp only [Bool.and_eq_true, decide_eq_true_eq] at h
  have h1 : (c.toNat - 48) % 10 = c.toNat - 48 := Nat.mod_eq_of_lt (by omega)
  rw [h1]
  have h2 : 48 + (c.toNat - 48) = c.toNat := by omega
  rw [h2, Char.ofNat_toNat]

theorem pad4_digits (a b c e : ℕ) (ha : a < 10) (hb : b < 10) (hc : c < 10)
    (he : e < 10) :
    pad4 (1000 * a + 100 * b + 10 * c + e) =
      [digChar a, digChar b, digChar c, digChar e] := by
  simp only [pad4, digChar, List.cons.injEq, and_true]
  refine ⟨?_, ?_, ?_, ?_⟩ <;> (congr 1; omega)

theorem pad2_digits (a b : ℕ) (ha : a < 10) (hb : b < 10) :
    pad2 (10 * a + b) = [digChar a, digChar b] := by
  simp only [pad2, digChar, List.cons.injEq, and_true]
  refine ⟨?_, ?_⟩ <;> (congr 1; omega)

theorem isDig_lt (c : Char) (h : isDig c = true) : digVal c < 10 := by
  unfold isDig at h
  simp only [Bool.and_eq_true, decide_eq_true_eq] at h
  unfold digVal
  omega

theorem isoFormat_parseIso (s : String) (d : CalDate)
    (h : parseIso s = some d) : isoFormat d = s := by
  unfold parseIso at h
  split at h
  case h_2 => exact Option.noConfusion h
  case h_1 y1 y2 y3 y4 m1 m2 d1 d2 heq =>
    dsimp only at h
    split at h
    case isFalse => exact Option.noConfusion h
    case isTrue hdig =>
      simp only [Bool.and_eq_true] at hdig
      obtain ⟨⟨⟨⟨⟨⟨⟨hy1, hy2⟩, hy3⟩, hy4⟩, hm1⟩, hm2⟩, hd1⟩, hd2⟩ := hdig
      split at h
      case isFalse => exact Option.noConfusion h
      case isTrue hval =>
        injection h with h
        subst h
        unfold isoFormat
        dsimp only
        rw [pad4_digits _ _ _ _ (isDig_lt _ hy1) (isDig_lt _ hy2)
            (isDig_lt _ hy3) (isDig_lt _ hy4),
          pad2_digits _ _ (isDig_lt _ hm1) (isDig_lt _ hm2),
          pad2_digits _ _ (isDig_lt _ hd1) (isDig_lt _ hd2),
          digChar_digVal _ hy1, digChar_digVal _ hy2, digChar_digVal _ hy3,
          digChar_digVal _ hy4, digChar_digVal _ hm1, digChar_digVal _ hm2,
          digChar_digVal _ hd1, digChar_digVal _ hd2]
        show ({ data := [y1, y2, y3, y4, '-', m1, m2, '-', d1, d2] } :
          String) = s
        rw [← heq]

/-- C6: for every canonical ISO date string `s` (denoting calendar date `d`)
and every reference date `today`: inside the inclusive window from
`today - 30` to `today + 365` days the bounds check returns `s` unchanged
with no warnings (round-trip); outside it returns `None` together with a
warning — never a silently clamped date. -/
theorem validate_date_window (s : String) (d : CalDate) (today : CalDate)
    (h : parseIso s = some d) :
    (((toOrd today : ℤ) - 30 ≤ toOrd d ∧
        (toOrd d : ℤ) ≤ (toOrd today : ℤ) + 365) →
      validate_date (some s) today 365 = (some s, [])) ∧
    (¬ ((toOrd today : ℤ) - 30 ≤ toOrd d ∧
        (toOrd d : ℤ) ≤ (toOrd today : ℤ) + 365) →
      (validate_date (some s) today 365).1 = none ∧
      (validate_date (some s) today 365).2 ≠ []) := by
  have hne : s ≠ "" := by
    rintro rfl
    exact Option.noConfusion h
  unfold validate_date
  dsimp only
  rw [if_neg hne, h]
  dsimp only
  constructor
  · rintro ⟨hlo, hhi⟩
    have h1 : ¬ ((toOrd d : ℤ) < (toOrd today : ℤ) - 30) := by omega
    have h2 : ¬ ((toOrd d : ℤ) > (toOrd today : ℤ) + 365) := by omega
    rw [if_neg h1, if_neg h2, isoFormat_parseIso s d h]
  · intro hout
    by_cases hlo : (toOrd d : ℤ) < (toOrd today : ℤ) - 30
    · rw [if_pos hlo]
      exact ⟨rfl, by simp⟩
    · have hhi : (toOrd d : ℤ) > (toOrd today : ℤ) + 365 := by omega
      rw [if_neg hlo, if_pos hhi]
      exact ⟨rfl, by simp⟩

/-- Witness for C6: `2025-01-10` survives the bounds check unchanged for
`today = 2025-01-06`. -/
theorem validate_date_window_witness :
    validate_date (some "2025-01-10") ⟨2025, 1, 6⟩ 365 =
      (some "2025-01-10", []) :=
  (validate_date_window "2025-01-10" ⟨2025, 1, 10⟩ ⟨2025, 1, 6⟩ (by decide)).1
    (by refine ⟨?_, ?_⟩ <;> decide)

end SmileCRM
